import Mathlib

/-!
Verification of `src/addons/docs/src/frameworks/react/propTypes/renderType.ts`,
a recursive type-descriptor formatter producing `{caption, value}` pairs.

Modelling conventions:
* JavaScript strings are Lean `String` (lengths counted in characters).
* `undefined`/`null` fields are `Option.none`; `isNil` is `Option.isNone`.
* External collaborators missing from the repository (`inspectValue`,
  `PropTypesType`, the JSDoc structures, `createPropText`) are modelled from
  the spec, parameterized where their behavior matters.
* A JavaScript exception is `Except.error ()`; the single `try`/`catch` in
  `generateType` converts it to the fixed fallback value.  Dynamic-type
  mismatches that JavaScript would surface as a `TypeError` (or as `undefined`
  leaking into a string position, unrepresentable in a `String`-typed field)
  are uniformly modelled as thrown faults; no theorem below evaluates the
  formatter on such an input except through the top-level catch.
-/

namespace PropTypesType

/-- Modelled from the spec: the `PropTypesType.CUSTOM` kind tag from the
missing `./types` module (react-docgen kind names). -/
def CUSTOM : String := "custom"

/-- Modelled from the spec: the `PropTypesType.FUNC` kind tag. -/
def FUNC : String := "func"

/-- Modelled from the spec: the `PropTypesType.SHAPE` kind tag. -/
def SHAPE : String := "shape"

/-- Modelled from the spec: the `PropTypesType.INSTANCEOF` kind tag. -/
def INSTANCEOF : String := "instanceOf"

/-- Modelled from the spec: the `PropTypesType.OBJECTOF` kind tag. -/
def OBJECTOF : String := "objectOf"

/-- Modelled from the spec: the `PropTypesType.UNION` kind tag. -/
def UNION : String := "union"

/-- Modelled from the spec: the `PropTypesType.ENUM` kind tag. -/
def ENUM : String := "enum"

/-- Modelled from the spec: the `PropTypesType.ARRAYOF` kind tag. -/
def ARRAYOF : String := "arrayOf"

end PropTypesType

/-- Modelled from the spec: the `InspectionType` enumeration produced by the
missing `inspectValue` module's value classifier: a coarse kind for a literal
or expression string.  `STRING` and `OBJECT` are the two kinds the formatter
special-cases; the remaining constructors stand for the "other kinds". -/
inductive InspectionType where
  | STRING
  | OBJECT
  | ARRAY
  | FUNCTION
  | ELEMENT
  | UNKNOWN
deriving DecidableEq, Repr

/-- Modelled from the spec: `inferedType.toString()`, the inferred kind's
display name. -/
def InspectionType.display : InspectionType → String
  | .STRING => "string"
  | .OBJECT => "object"
  | .ARRAY => "array"
  | .FUNCTION => "function"
  | .ELEMENT => "element"
  | .UNKNOWN => "unknown"

/-- The classifier collaborator: `inspectValue`.  It is external, deterministic
and may throw (`Except.error`); the formatter is parameterized by it. -/
abbrev Inspector : Type := String → Except Unit InspectionType

/-- `EnumValue` (source lines 21-24): a literal enum member or a computed
expression. -/
structure EnumValue where
  value : String
  computed : Bool
deriving DecidableEq, Repr

/-- `MAX_CAPTION_LENGTH` (source line 11). -/
def MAX_CAPTION_LENGTH : Nat := 35

mutual

/-- The `PropType` descriptor (source lines 13-19): a duck-typed record
`{name, value?, raw?}`.  The dynamic `value` field is an explicit tagged
union `PTValue` of the shapes the formatter probes for. -/
inductive PropType where
  | mk : (name : String) → (value : Option PTValue) → (raw : Option String) → PropType

/-- The dynamic shapes of a descriptor's `value` field: a raw string, a
field-name-to-descriptor mapping (Shape; the list order is the object's key
iteration order), a single nested descriptor (ObjectOf/ArrayOf), an array of
descriptors (Union) or an array of `EnumValue` entries (Enum). -/
inductive PTValue where
  | vstr : String → PTValue
  | vshape : List (String × PropType) → PTValue
  | vnested : PropType → PTValue
  | vseq : List PropType → PTValue
  | venum : List EnumValue → PTValue

end

def PropType.name : PropType → String
  | .mk n _ _ => n

def PropType.value : PropType → Option PTValue
  | .mk _ v _ => v

def PropType.raw : PropType → Option String
  | .mk _ _ r => r

/-- `TypeDef` (source lines 26-31), the `FormattedType` output record. -/
structure TypeDef where
  name : String
  caption : String
  value : String
  inferedType : Option InspectionType
deriving DecidableEq, Repr

/-- In JavaScript regular expressions an unescaped `.` matches any character
except a line terminator (`\n`, `\r`, U+2028, U+2029). -/
def jsDot (c : Char) : Bool :=
  c != '\n' && c != '\r' && c != (Char.ofNat 0x2028) && c != (Char.ofNat 0x2029)

/-- One step of `/PropTypes./g`: if the text starts with the literal
`PropTypes` followed by any (dot-matched) character, return the remainder
after the match. -/
def stepPropTypesDot : List Char → Option (List Char)
  | 'P' :: 'r' :: 'o' :: 'p' :: 'T' :: 'y' :: 'p' :: 'e' :: 's' :: c :: rest =>
    if jsDot c then some rest else none
  | _ => none

/-- One step of `/.isRequired/g`: if the text starts with any (dot-matched)
character followed by the literal `isRequired`, return the remainder. -/
def stepDotIsRequired : List Char → Option (List Char)
  | c :: 'i' :: 's' :: 'R' :: 'e' :: 'q' :: 'u' :: 'i' :: 'r' :: 'e' :: 'd' :: rest =>
    if jsDot c then some rest else none
  | _ => none

/-- Global regex replacement by the empty string: scan left to right, at each
position either consume a match (resuming after its end, as JavaScript's
global `replace` does) or emit one character and advance.  Fuel bounds the
number of scan steps; each step consumes at least one character, so fuel equal
to the text length always suffices. -/
def replaceAllEmpty (step : List Char → Option (List Char)) : Nat → List Char → List Char
  | 0, cs => cs
  | _ + 1, [] => []
  | fuel + 1, c :: rest =>
    match step (c :: rest) with
    | some rest2 => replaceAllEmpty step fuel rest2
    | none => c :: replaceAllEmpty step fuel rest

/-- `shortifyPropTypes` (source lines 33-35):
`value.replace(/PropTypes./g, '').replace(/.isRequired/g, '')`.
Both regexes contain an unescaped dot. -/
def shortifyPropTypes (value : String) : String :=
  let afterFirst := replaceAllEmpty stepPropTypesDot value.data.length value.data
  ⟨replaceAllEmpty stepDotIsRequired afterFirst.length afterFirst⟩

/-- `createTypeDef` (source lines 37-54): when `value` is nil it defaults to
`caption`. -/
def createTypeDef (name caption : String) (value : Option String)
    (inferedType : Option InspectionType) : TypeDef :=
  { name := name
    caption := caption
    value := value.getD caption
    inferedType := inferedType }

/-- The fixed fallback produced by `generateType`'s catch-all
(source line 289). -/
def unknownTypeDef : TypeDef :=
  createTypeDef "unknown" "unknown" none none

/-- Modelled from the spec: an extracted JSDoc parameter descriptor from the
missing `jsdocParser` module; `prettyName` is `getPrettyName()` and `typeName`
is `getTypeName()` (nil when the parameter has no declared type). -/
structure ExtractedJsDocParam where
  prettyName : String
  typeName : Option String
deriving DecidableEq, Repr

/-- Modelled from the spec: the extracted JSDoc return descriptor; `typeName`
is `getTypeName()`. -/
structure ExtractedJsDocReturns where
  typeName : String
deriving DecidableEq, Repr

/-- Modelled from the spec: the documentation tags of a prop: an optional
ordered parameter list and an optional return descriptor. -/
structure JsDocTags where
  params : Option (List ExtractedJsDocParam)
  returns : Option ExtractedJsDocReturns
deriving DecidableEq, Repr

/-- Modelled from the spec: the docgen info carried by an extracted prop; the
formatter only reads its `type` descriptor. -/
structure DocgenInfo where
  type : PropType

/-- Modelled from the spec: `ExtractedProp` from the missing
`extractDocgenProps` module; the formatter reads `docgenInfo.type` and the
optional `jsDocTags`. -/
structure ExtractedProp where
  docgenInfo : DocgenInfo
  jsDocTags : Option JsDocTags

/-- `generateFuncSignature` (source lines 85-114).  The `getD` defaults are
unreachable from `generateFunc`, which passes `hasParams`/`hasReturns`
computed from the presence of the corresponding field. -/
def generateFuncSignature (jsDocTags : JsDocTags) (hasParams hasReturns : Bool) :
    String :=
  let paramsPart :=
    if hasParams then
      let funcParams := (jsDocTags.params.getD []).map fun x =>
        match x.typeName with
        | some typeName => x.prettyName ++ ": " ++ typeName
        | none => x.prettyName
      "(" ++ String.intercalate ", " funcParams ++ ")"
    else "()"
  let funcParts :=
    [paramsPart] ++
      if hasReturns then
        ["=> " ++ ((jsDocTags.returns.map ExtractedJsDocReturns.typeName).getD "undefined")]
      else []
  String.intercalate " " funcParts

/-- `generateFunc` (source lines 116-133). -/
def generateFunc (extractedProp : ExtractedProp) : TypeDef :=
  match extractedProp.jsDocTags with
  | some jsDocTags =>
    let hasParams := jsDocTags.params.isSome
    let hasReturns := jsDocTags.returns.isSome
    if hasParams || hasReturns then
      createTypeDef PropTypesType.FUNC "func"
        (some (generateFuncSignature jsDocTags hasParams hasReturns)) none
    else
      createTypeDef PropTypesType.FUNC "func" none none
  | none => createTypeDef PropTypesType.FUNC "func" none none

/-- `generateComputedValue` (source lines 57-66): classify the literal text
(the classifier may throw) and use the inferred kind's display name as
caption. -/
def generateComputedValue (inspect : Inspector) (typeName value : String) :
    Except Unit TypeDef := do
  let inferedType ← inspect value
  pure (createTypeDef typeName inferedType.display
    (some (if inferedType = InspectionType.OBJECT then shortifyPropTypes value else value))
    (some inferedType))

/-- `generateCustom` (source lines 68-83): classify `raw` when present; strip
PropTypes qualifiers when the inferred kind is Object; elide captions longer
than `MAX_CAPTION_LENGTH` to `"custom"`. -/
def generateCustom (inspect : Inspector) (raw : Option String) :
    Except Unit TypeDef :=
  match raw with
  | some r => do
    let inferedType ← inspect r
    let value := if inferedType = InspectionType.OBJECT then shortifyPropTypes r else r
    pure (createTypeDef PropTypesType.CUSTOM
      (if value.length ≤ MAX_CAPTION_LENGTH then value else "custom")
      (some value) (some inferedType))
  | none => pure (createTypeDef PropTypesType.CUSTOM "custom" none none)

/-- `generateEnumValue` (source lines 198-202). -/
def generateEnumValue (inspect : Inspector) (e : EnumValue) : Except Unit TypeDef :=
  if e.computed then generateComputedValue inspect "enumvalue" e.value
  else pure (createTypeDef "enumvalue" e.value none none)

/-- `generateEnum` (source lines 204-226), applied to the descriptor's `value`
field.  The array branch joins member captions/values with `" | "`; the
non-array branch uses the raw string as caption.  A `value` that is nil, an
object, or an array whose entries are not `EnumValue`-shaped is modelled as a
fault (in JavaScript it leaks `undefined` into a string position). -/
def generateEnum (inspect : Inspector) (value : Option PTValue) :
    Except Unit TypeDef :=
  match value with
  | some (.venum entries) => do
    let defs ← entries.mapM (generateEnumValue inspect)
    pure (createTypeDef PropTypesType.ENUM
      (String.intercalate " | " (defs.map TypeDef.caption))
      (some (String.intercalate " | " (defs.map TypeDef.value))) none)
  | some (.vstr s) => pure (createTypeDef PropTypesType.ENUM s none none)
  | _ => Except.error ()

/-- The body of `generateObjectOf` (source lines 149-172) after the recursive
call, taking the already-formatted nested result.  The caption override
applies the inferred kind's display name for Custom with a non-String,
non-Object inferred kind, and the full value for a short Shape. -/
def generateObjectOfStep (d : TypeDef) : TypeDef :=
  let format := fun (of : String) => "objectOf(" ++ of ++ ")"
  let caption :=
    if d.name = PropTypesType.CUSTOM then
      match d.inferedType with
      | some inferedType =>
        if inferedType ≠ InspectionType.STRING ∧ inferedType ≠ InspectionType.OBJECT then
          inferedType.display
        else d.caption
      | none => d.caption
    else if d.name = PropTypesType.SHAPE then
      if d.value.length ≤ MAX_CAPTION_LENGTH then d.value else d.caption
    else d.caption
  createTypeDef PropTypesType.OBJECTOF (format caption) (some (format d.value)) none

/-- The body of `generateArray` (source lines 228-260) after the recursive
call, taking the already-formatted nested result. -/
def generateArrayStep (d : TypeDef) : TypeDef :=
  let braceAfter := fun (of : String) => of ++ "[]"
  let braceAround := fun (of : String) => "[" ++ of ++ "]"
  if d.name = PropTypesType.CUSTOM then
    match d.inferedType with
    | some inferedType =>
      if inferedType ≠ InspectionType.STRING ∧ inferedType ≠ InspectionType.OBJECT then
        -- The source assigns `caption = inferedType.toString()` here, but the
        -- assignment is dead: control falls through to the final
        -- `return createTypeDef({... caption: braceAfter(value)})`.
        createTypeDef PropTypesType.ARRAYOF (braceAfter d.value) none none
      else if inferedType = InspectionType.OBJECT then
        let caption :=
          if d.value.length ≤ MAX_CAPTION_LENGTH then braceAround d.value
          else braceAfter inferedType.display
        createTypeDef PropTypesType.ARRAYOF caption (some (braceAround d.value)) none
      else
        createTypeDef PropTypesType.ARRAYOF (braceAfter d.value) none none
    | none => createTypeDef PropTypesType.ARRAYOF (braceAfter d.value) none none
  else if d.name = PropTypesType.SHAPE then
    let caption :=
      if d.value.length ≤ MAX_CAPTION_LENGTH then braceAround d.value
      else braceAfter d.caption
    createTypeDef PropTypesType.ARRAYOF caption (some (braceAround d.value)) none
  else
    createTypeDef PropTypesType.ARRAYOF (braceAfter d.value) none none

mutual

/-- `generateType` (source lines 262-290): dispatch on the descriptor's kind
name inside a `try`; any fault is converted to the fixed `unknownTypeDef`
fallback.  An unrecognized kind is a passthrough
`createTypeDef({name, caption: name})`. -/
def generateType (inspect : Inspector) (ep : ExtractedProp) : PropType → TypeDef
  | .mk name value raw =>
    let res : Except Unit TypeDef :=
      if name = PropTypesType.CUSTOM then generateCustom inspect raw
      else if name = PropTypesType.FUNC then pure (generateFunc ep)
      else if name = PropTypesType.SHAPE then generateShape inspect ep value
      else if name = PropTypesType.INSTANCEOF then
        -- `createTypeDef({name: INSTANCEOF, caption: type.value})`: the
        -- descriptor's value must be a raw string; other dynamic shapes are
        -- modelled as faults.
        match value with
        | some (.vstr s) => pure (createTypeDef PropTypesType.INSTANCEOF s none none)
        | _ => Except.error ()
      else if name = PropTypesType.OBJECTOF then generateObjectOf inspect ep value
      else if name = PropTypesType.UNION then generateUnion inspect ep value
      else if name = PropTypesType.ENUM then generateEnum inspect value
      else if name = PropTypesType.ARRAYOF then generateArray inspect ep value
      else pure (createTypeDef name name none none)
    match res with
    | .ok d => d
    | .error _ => unknownTypeDef

/-- `generateShape` (source lines 135-147), applied to the descriptor's
`value` field: render each field as `key: nestedValue` in key order, wrap in
braces, elide captions longer than `MAX_CAPTION_LENGTH` to `"object"`.
`Object.keys` throws on a nil `value`; a non-object `value` is likewise
modelled as a fault. -/
def generateShape (inspect : Inspector) (ep : ExtractedProp) :
    Option PTValue → Except Unit TypeDef
  | some (.vshape fieldList) =>
    let fields := String.intercalate ", " (shapeFields inspect ep fieldList)
    let shape := "\x7b " ++ fields ++ " \x7d"
    pure (createTypeDef PropTypesType.SHAPE
      (if shape.length ≤ MAX_CAPTION_LENGTH then shape else "object")
      (some shape) none)
  | _ => Except.error ()

/-- The mapped body of `generateShape`: each field key paired with the `value`
of its recursively formatted descriptor. -/
def shapeFields (inspect : Inspector) (ep : ExtractedProp) :
    List (String × PropType) → List String
  | [] => []
  | (key, t) :: rest =>
    (key ++ ": " ++ (generateType inspect ep t).value) :: shapeFields inspect ep rest

/-- `generateObjectOf` (source lines 149-172), applied to the descriptor's
`value` field.  On a nil `value` the source calls `generateType(undefined)`,
whose own catch yields the `unknownTypeDef` fallback as the nested result. -/
def generateObjectOf (inspect : Inspector) (ep : ExtractedProp) :
    Option PTValue → Except Unit TypeDef
  | some (.vnested t) => pure (generateObjectOfStep (generateType inspect ep t))
  | none => pure (generateObjectOfStep unknownTypeDef)
  | _ => Except.error ()

/-- `generateUnion` (source lines 174-196), applied to the descriptor's
`value` field: the array branch joins member captions/values with `" | "`;
the non-array branch uses the raw string as caption.  A nil or
non-string-non-array `value` is modelled as a fault. -/
def generateUnion (inspect : Inspector) (ep : ExtractedProp) :
    Option PTValue → Except Unit TypeDef
  | some (.vseq members) =>
    let defs := unionMembers inspect ep members
    pure (createTypeDef PropTypesType.UNION
      (String.intercalate " | " (defs.map TypeDef.caption))
      (some (String.intercalate " | " (defs.map TypeDef.value))) none)
  | some (.vstr s) => pure (createTypeDef PropTypesType.UNION s none none)
  | _ => Except.error ()

/-- The reduce body of `generateUnion`: recursively format every member in
input order. -/
def unionMembers (inspect : Inspector) (ep : ExtractedProp) :
    List PropType → List TypeDef
  | [] => []
  | t :: rest => generateType inspect ep t :: unionMembers inspect ep rest

/-- `generateArray` (source lines 228-260), applied to the descriptor's
`value` field; on a nil `value` the nested `generateType(undefined)` call
yields the fallback, as for `generateObjectOf`. -/
def generateArray (inspect : Inspector) (ep : ExtractedProp) :
    Option PTValue → Except Unit TypeDef
  | some (.vnested t) => pure (generateArrayStep (generateType inspect ep t))
  | none => pure (generateArrayStep unknownTypeDef)
  | _ => Except.error ()

end

/-- Modelled from the spec: the output of `createPropText` from the missing
`createComponents` module: a display text with an optional `title` detail. -/
structure PropText where
  text : String
  title : Option String
deriving DecidableEq, Repr

/-- Modelled from the spec: `createPropText(text, {title})` builds the display
node; a `title` of `undefined` means no detail is attached. -/
def createPropText (text : String) (title : Option String) : PropText :=
  { text := text, title := title }

/-- The eight kind names `generateType`'s switch dispatches on
(source lines 264-283); every other kind hits the default passthrough. -/
def handledKinds : List String :=
  [PropTypesType.CUSTOM, PropTypesType.FUNC, PropTypesType.SHAPE,
   PropTypesType.INSTANCEOF, PropTypesType.OBJECTOF, PropTypesType.UNION,
   PropTypesType.ENUM, PropTypesType.ARRAYOF]

/-- The seven kinds sharing `renderType`'s first case (source lines 296-302). -/
def captionRenderedKinds : List String :=
  [PropTypesType.CUSTOM, PropTypesType.SHAPE, PropTypesType.INSTANCEOF,
   PropTypesType.OBJECTOF, PropTypesType.UNION, PropTypesType.ENUM,
   PropTypesType.ARRAYOF]

/-- `renderType` (source lines 292-315): the rendering entry point.  `none`
models the `null` ReactNode. -/
def renderType (inspect : Inspector) (extractedProp : ExtractedProp) :
    Option PropText :=
  let type := extractedProp.docgenInfo.type
  if type.name ∈ captionRenderedKinds then
    let d := generateType inspect extractedProp type
    some (createPropText d.caption (if d.caption ≠ d.value then some d.value else none))
  else if type.name = PropTypesType.FUNC then
    let d := generateType inspect extractedProp type
    some (createPropText d.value none)
  else
    none

/-! ## Helper lemmas -/

/-- No suffix of `cs` begins with a match of `step`: the global replacement
has nothing to do. -/
def matchFree (step : List Char → Option (List Char)) (cs : List Char) : Prop :=
  ∀ t ∈ cs.tails, step t = none

instance (step : List Char → Option (List Char)) (cs : List Char) :
    Decidable (matchFree step cs) := by
  unfold matchFree; infer_instance

theorem replaceAllEmpty_matchFree (step : List Char → Option (List Char)) :
    ∀ (fuel : Nat) (cs : List Char), matchFree step cs →
      replaceAllEmpty step fuel cs = cs
  | 0, _, _ => rfl
  | _ + 1, [], _ => rfl
  | fuel + 1, c :: rest, h => by
    have hc : step (c :: rest) = none := h _ ((List.mem_tails _ _).mpr List.suffix_rfl)
    have hr : matchFree step rest := fun t ht =>
      h t ((List.mem_tails _ _).mpr
        (((List.mem_tails _ _).mp ht).trans (List.suffix_cons c rest)))
    simp [replaceAllEmpty, hc, replaceAllEmpty_matchFree step fuel rest hr]

theorem shapeFields_eq_map (inspect : Inspector) (ep : ExtractedProp) :
    ∀ fields : List (String × PropType),
      shapeFields inspect ep fields =
        fields.map fun f => f.1 ++ ": " ++ (generateType inspect ep f.2).value
  | [] => rfl
  | (key, t) :: rest => by
    simp [shapeFields, shapeFields_eq_map inspect ep rest]

theorem unionMembers_eq_map (inspect : Inspector) (ep : ExtractedProp) :
    ∀ members : List PropType,
      unionMembers inspect ep members = members.map (generateType inspect ep)
  | [] => rfl
  | t :: rest => by
    simp [unionMembers, unionMembers_eq_map inspect ep rest]

theorem generateType_shape_eq (inspect : Inspector) (ep : ExtractedProp)
    (fields : List (String × PropType)) (raw : Option String) :
    generateType inspect ep (.mk PropTypesType.SHAPE (some (.vshape fields)) raw) =
      (let shape := "\x7b " ++ String.intercalate ", " (shapeFields inspect ep fields) ++ " \x7d"
       createTypeDef PropTypesType.SHAPE
         (if shape.length ≤ MAX_CAPTION_LENGTH then shape else "object")
         (some shape) none) :=
  rfl

theorem generateType_arrayOf_eq (inspect : Inspector) (ep : ExtractedProp)
    (t : PropType) (raw : Option String) :
    generateType inspect ep (.mk PropTypesType.ARRAYOF (some (.vnested t)) raw) =
      generateArrayStep (generateType inspect ep t) :=
  rfl

theorem generateType_objectOf_eq (inspect : Inspector) (ep : ExtractedProp)
    (t : PropType) (raw : Option String) :
    generateType inspect ep (.mk PropTypesType.OBJECTOF (some (.vnested t)) raw) =
      generateObjectOfStep (generateType inspect ep t) :=
  rfl

theorem generateType_custom_eq (inspect : Inspector) (ep : ExtractedProp)
    (v : Option PTValue) (raw : Option String) :
    generateType inspect ep (.mk PropTypesType.CUSTOM v raw) =
      (match generateCustom inspect raw with
       | .ok d => d
       | .error _ => unknownTypeDef) :=
  rfl

theorem generateCustom_ok (inspect : Inspector) (r : String) (it : InspectionType)
    (h : inspect r = .ok it) :
    generateCustom inspect (some r) =
      .ok (let value := if it = InspectionType.OBJECT then shortifyPropTypes r else r
           createTypeDef PropTypesType.CUSTOM
             (if value.length ≤ MAX_CAPTION_LENGTH then value else "custom")
             (some value) (some it)) := by
  simp [generateCustom, h, Except.bind]

theorem generateArrayStep_of_shape (d : TypeDef) (h : d.name = PropTypesType.SHAPE) :
    generateArrayStep d =
      createTypeDef PropTypesType.ARRAYOF
        (if d.value.length ≤ MAX_CAPTION_LENGTH then "[" ++ d.value ++ "]"
         else d.caption ++ "[]")
        (some ("[" ++ d.value ++ "]")) none := by
  rw [generateArrayStep, h]
  simp [PropTypesType.SHAPE, PropTypesType.CUSTOM]

theorem generateType_unrecognized (inspect : Inspector) (ep : ExtractedProp)
    (name : String) (v : Option PTValue) (raw : Option String)
    (h : name ∉ handledKinds) :
    generateType inspect ep (.mk name v raw) =
      { name := name, caption := name, value := name, inferedType := none } := by
  simp only [handledKinds, List.mem_cons, List.not_mem_nil, or_false, not_or] at h
  obtain ⟨h1, h2, h3, h4, h5, h6, h7, h8⟩ := h
  simp only [generateType, h1, h2, h3, h4, h5, h6, h7, h8, if_false, if_neg]
  rfl

theorem generateArrayStep_value_eq_caption (d : TypeDef)
    (h1 : d.name ≠ PropTypesType.SHAPE)
    (h2 : ¬(d.name = PropTypesType.CUSTOM ∧
        d.inferedType = some InspectionType.OBJECT)) :
    (generateArrayStep d).value = (generateArrayStep d).caption := by
  rw [generateArrayStep]
  by_cases hc : d.name = PropTypesType.CUSTOM
  · simp only [hc, if_pos rfl]
    cases hit : d.inferedType with
    | none => rfl
    | some it =>
      by_cases hso : it ≠ InspectionType.STRING ∧ it ≠ InspectionType.OBJECT
      · simp [hso]
        rfl
      · have hno : it ≠ InspectionType.OBJECT := by
          intro he; exact h2 ⟨hc, by rw [hit, he]⟩
        have hs : it = InspectionType.STRING := by
          by_contra hns
          exact hso ⟨hns, hno⟩
        simp [hso, hs]
        rfl
  · simp [hc, h1]
    rfl

theorem generateType_union_eq (inspect : Inspector) (ep : ExtractedProp)
    (members : List PropType) (raw : Option String) :
    generateType inspect ep (.mk PropTypesType.UNION (some (.vseq members)) raw) =
      createTypeDef PropTypesType.UNION
        (String.intercalate " | " ((unionMembers inspect ep members).map TypeDef.caption))
        (some (String.intercalate " | "
          ((unionMembers inspect ep members).map TypeDef.value))) none :=
  rfl

theorem generateType_enum_eq (inspect : Inspector) (ep : ExtractedProp)
    (entries : List EnumValue) (raw : Option String) :
    generateType inspect ep (.mk PropTypesType.ENUM (some (.venum entries)) raw) =
      (match generateEnum inspect (some (.venum entries)) with
       | .ok d => d
       | .error _ => unknownTypeDef) :=
  rfl

theorem generateEnum_ok (inspect : Inspector) (entries : List EnumValue)
    (ds : List TypeDef) (h : entries.mapM (generateEnumValue inspect) = .ok ds) :
    generateEnum inspect (some (.venum entries)) =
      .ok (createTypeDef PropTypesType.ENUM
        (String.intercalate " | " (ds.map TypeDef.caption))
        (some (String.intercalate " | " (ds.map TypeDef.value))) none) := by
  simp only [generateEnum]
  rw [h]
  rfl

theorem space_arrow_append (r : String) : " " ++ ("=> " ++ r) = " => " ++ r := by
  rw [← String.append_assoc]
  rfl

theorem generateFuncSignature_params_returns (ps : List ExtractedJsDocParam)
    (ret : ExtractedJsDocReturns) :
    generateFuncSignature ⟨some ps, some ret⟩ true true =
      "(" ++ String.intercalate ", " (ps.map fun x =>
          match x.typeName with
          | some typeName => x.prettyName ++ ": " ++ typeName
          | none => x.prettyName) ++ ")" ++ " => " ++ ret.typeName := by
  show ("(" ++ String.intercalate ", " (ps.map fun x =>
      match x.typeName with
      | some typeName => x.prettyName ++ ": " ++ typeName
      | none => x.prettyName) ++ ")" ++ " ") ++ ("=> " ++ ret.typeName) = _
  rw [String.append_assoc, space_arrow_append, ← String.append_assoc]

theorem generateFuncSignature_returns_only (ret : ExtractedJsDocReturns) :
    generateFuncSignature ⟨none, some ret⟩ false true = "() => " ++ ret.typeName := by
  show "() " ++ ("=> " ++ ret.typeName) = _
  rw [← String.append_assoc]
  rfl

/-! ## Claims -/

/-- C2: for every Shape descriptor, the value is the full brace-wrapped
string built by recursively formatting each field's nested descriptor in the
mapping's iteration order and taking its value; the caption equals that
string when its length is at most 35 and equals `"object"` otherwise, while
the value equals the full string regardless of length. -/
theorem shape_caption_value (inspect : Inspector) (ep : ExtractedProp)
    (fields : List (String × PropType)) (raw : Option String) :
    generateType inspect ep (.mk PropTypesType.SHAPE (some (.vshape fields)) raw) =
      (let shape := "\x7b " ++ String.intercalate ", "
          (fields.map fun f => f.1 ++ ": " ++ (generateType inspect ep f.2).value) ++ " \x7d"
       { name := PropTypesType.SHAPE
         caption := if shape.length ≤ MAX_CAPTION_LENGTH then shape else "object"
         value := shape
         inferedType := none }) := by
  simp only [generateType_shape_eq, shapeFields_eq_map, createTypeDef, Option.getD]

/-- C5: for every ArrayOf descriptor wrapping a Shape, the value is the
wrapped Shape's value in brackets (so dropping one leading `[` and one
trailing `]` recovers the Shape's value exactly), and the caption is the
bracketed value when the Shape's value has length at most 35 and the Shape's
own caption suffixed with `[]` otherwise. -/
theorem arrayOf_shape_caption_value (inspect : Inspector) (ep : ExtractedProp)
    (fields : List (String × PropType)) (rawS rawA : Option String) :
    (generateType inspect ep (.mk PropTypesType.ARRAYOF
        (some (.vnested (.mk PropTypesType.SHAPE (some (.vshape fields)) rawS))) rawA) =
      (let inner := generateType inspect ep
          (.mk PropTypesType.SHAPE (some (.vshape fields)) rawS)
       { name := PropTypesType.ARRAYOF
         caption := if inner.value.length ≤ MAX_CAPTION_LENGTH
           then "[" ++ inner.value ++ "]" else inner.caption ++ "[]"
         value := "[" ++ inner.value ++ "]"
         inferedType := none })) ∧
    ((generateType inspect ep (.mk PropTypesType.ARRAYOF
        (some (.vnested (.mk PropTypesType.SHAPE (some (.vshape fields)) rawS))) rawA)
      ).value.data.drop 1).dropLast =
      (generateType inspect ep
        (.mk PropTypesType.SHAPE (some (.vshape fields)) rawS)).value.data := by
  have hname : (generateType inspect ep
      (.mk PropTypesType.SHAPE (some (.vshape fields)) rawS)).name =
      PropTypesType.SHAPE := by
    rw [generateType_shape_eq]; rfl
  have hmain := generateArrayStep_of_shape _ hname
  constructor
  · rw [generateType_arrayOf_eq, hmain]
    simp only [createTypeDef, Option.getD]
  · rw [generateType_arrayOf_eq, hmain]
    simp only [createTypeDef, Option.getD]
    rw [String.data_append, String.data_append]
    simp [List.dropLast_concat]

/-- C1 counterexample: a descriptor with the unrecognized kind `"bool"` is
returned as the passthrough `{name: "bool", caption: "bool", value: "bool"}`,
not the fixed `{name: "unknown", ...}` fallback the claim requires. -/
theorem unrecognized_kind_not_fallback :
    generateType (fun _ => Except.error ()) ⟨⟨.mk "bool" none none⟩, none⟩
        (.mk "bool" none none) ≠ unknownTypeDef := by
  decide

/-- C1 (amended): formatting never raises: the top-level dispatch converts an
internal fault (a classifier that throws on a Custom raw value, or a Shape
descriptor whose missing `value` makes `Object.keys` throw) to the fixed
`{name: "unknown", caption: "unknown", value: "unknown"}` fallback; but a
descriptor with an unrecognized kind yields the passthrough
`{name, caption: name, value: name}`, and a Custom descriptor with a missing
`raw` yields the fixed `{custom, custom, custom}` result, not the fallback. -/
theorem generateType_fault_fallback :
    (∀ (inspect : Inspector) (ep : ExtractedProp) (v : Option PTValue) (r : String),
      inspect r = .error () →
      generateType inspect ep (.mk PropTypesType.CUSTOM v (some r)) = unknownTypeDef) ∧
    (∀ (inspect : Inspector) (ep : ExtractedProp) (raw : Option String),
      generateType inspect ep (.mk PropTypesType.SHAPE none raw) = unknownTypeDef) ∧
    (∀ (inspect : Inspector) (ep : ExtractedProp) (name : String)
        (v : Option PTValue) (raw : Option String),
      name ∉ handledKinds →
      generateType inspect ep (.mk name v raw) =
        { name := name, caption := name, value := name, inferedType := none }) ∧
    (∀ (inspect : Inspector) (ep : ExtractedProp) (v : Option PTValue),
      generateType inspect ep (.mk PropTypesType.CUSTOM v none) =
        { name := PropTypesType.CUSTOM, caption := "custom", value := "custom",
          inferedType := none }) := by
  refine ⟨?_, ?_, ?_, ?_⟩
  · intro inspect ep v r h
    rw [generateType_custom_eq]
    simp [generateCustom, h, Except.bind]
  · intro inspect ep raw
    rfl
  · intro inspect ep name v raw h
    exact generateType_unrecognized inspect ep name v raw h
  · intro inspect ep v
    rfl

/-- C1 witness: the amended theorem applied to a throwing classifier on a
Custom descriptor and to the unrecognized kind `"node"`. -/
theorem generateType_fault_fallback_witness :
    generateType (fun _ => Except.error ()) ⟨⟨.mk "bool" none none⟩, none⟩
        (.mk PropTypesType.CUSTOM none (some "PropTypes.shape")) = unknownTypeDef ∧
    generateType (fun _ => Except.error ()) ⟨⟨.mk "bool" none none⟩, none⟩
        (.mk "node" none none) =
      { name := "node", caption := "node", value := "node", inferedType := none } :=
  ⟨generateType_fault_fallback.1 _ _ none "PropTypes.shape" rfl,
   generateType_fault_fallback.2.2.1 _ _ "node" none none (by decide)⟩

/-- C3 counterexample: for an ArrayOf descriptor over a Custom descriptor
with raw text `"5"` classified as a non-String, non-Object kind (Array), the
returned caption is `"5[]"`, not the inferred kind's display name `"array"`
the claim requires. -/
theorem arrayOf_custom_inferred_caption_counterexample :
    (generateType (fun _ => Except.ok InspectionType.ARRAY)
        ⟨⟨.mk "bool" none none⟩, none⟩
        (.mk PropTypesType.ARRAYOF
          (some (.vnested (.mk PropTypesType.CUSTOM none (some "5")))) none)).caption =
      "5[]" ∧
    "5[]" ≠ InspectionType.ARRAY.display := by
  constructor
  · decide
  · decide

/-- C3 (amended): for every ArrayOf descriptor whose nested descriptor is
Custom with a present inferred kind that is neither String nor Object, the
caption is the nested raw value suffixed with `[]` (and the value equals the
caption): the source's assignment of the inferred kind's display name to the
caption is a dead store, overwritten by the final generic return. -/
theorem arrayOf_custom_inferred_caption (inspect : Inspector) (ep : ExtractedProp)
    (vc : Option PTValue) (r : String) (rawA : Option String) (it : InspectionType)
    (h : inspect r = .ok it) (h1 : it ≠ InspectionType.STRING)
    (h2 : it ≠ InspectionType.OBJECT) :
    generateType inspect ep (.mk PropTypesType.ARRAYOF
        (some (.vnested (.mk PropTypesType.CUSTOM vc (some r)))) rawA) =
      { name := PropTypesType.ARRAYOF
        caption := r ++ "[]"
        value := r ++ "[]"
        inferedType := none } := by
  rw [generateType_arrayOf_eq, generateType_custom_eq, generateCustom_ok inspect r it h]
  simp only [if_neg h2]
  rw [generateArrayStep]
  simp [createTypeDef, h1, h2, PropTypesType.CUSTOM]

/-- C3 witness: the amended theorem at the counterexample's input. -/
theorem arrayOf_custom_inferred_caption_witness :
    generateType (fun _ => Except.ok InspectionType.ARRAY)
        ⟨⟨.mk "bool" none none⟩, none⟩
        (.mk PropTypesType.ARRAYOF
          (some (.vnested (.mk PropTypesType.CUSTOM none (some "5")))) none) =
      { name := PropTypesType.ARRAYOF, caption := "5[]", value := "5[]",
        inferedType := none } :=
  arrayOf_custom_inferred_caption _ _ none "5" none InspectionType.ARRAY rfl
    (by decide) (by decide)

/-- C6: for every ObjectOf descriptor, caption and value are the nested
result's caption and value each wrapped as `objectOf(X)`; the nested caption
is first replaced by the inferred kind's display name when the nested result
is Custom with a non-String, non-Object inferred kind, and by the nested full
value when the nested result is a Shape whose value has length at most 35; in
particular ObjectOf over Custom `"PropTypes.string"` inferred as String gives
caption = value = `"objectOf(PropTypes.string)"`. -/
theorem objectOf_caption_value :
    (∀ (inspect : Inspector) (ep : ExtractedProp) (t : PropType) (raw : Option String),
      generateType inspect ep (.mk PropTypesType.OBJECTOF (some (.vnested t)) raw) =
        (let nested := generateType inspect ep t
         let nestedCaption :=
           if nested.name = PropTypesType.CUSTOM then
             match nested.inferedType with
             | some it =>
               if it ≠ InspectionType.STRING ∧ it ≠ InspectionType.OBJECT then it.display
               else nested.caption
             | none => nested.caption
           else if nested.name = PropTypesType.SHAPE then
             (if nested.value.length ≤ MAX_CAPTION_LENGTH then nested.value
              else nested.caption)
           else nested.caption
         { name := PropTypesType.OBJECTOF
           caption := "objectOf(" ++ nestedCaption ++ ")"
           value := "objectOf(" ++ nested.value ++ ")"
           inferedType := none })) ∧
    generateType (fun _ => Except.ok InspectionType.STRING)
        ⟨⟨.mk "bool" none none⟩, none⟩
        (.mk PropTypesType.OBJECTOF
          (some (.vnested (.mk PropTypesType.CUSTOM none (some "PropTypes.string"))))
          none) =
      { name := PropTypesType.OBJECTOF
        caption := "objectOf(PropTypes.string)"
        value := "objectOf(PropTypes.string)"
        inferedType := none } := by
  constructor
  · intro inspect ep t raw
    rw [generateType_objectOf_eq]
    rfl
  · decide

/-- C4 counterexample: the stripping function is not idempotent.  On
`"PropPropTypes.Types.x"` one pass removes the inner `PropTypes.` occurrence
and splices the flanking text into a fresh `PropTypes.` occurrence, which a
second pass removes. -/
theorem shortifyPropTypes_not_idempotent :
    shortifyPropTypes (shortifyPropTypes "PropPropTypes.Types.x") ≠
      shortifyPropTypes "PropPropTypes.Types.x" := by
  decide

/-- C4 (amended): stripping is idempotent whenever the first pass's output is
free of further `PropTypes`+any-char and any-char+`isRequired` matches (in
particular on every already-stripped string with no spliced-together
occurrence), but not in general: removal can create a new occurrence. -/
theorem shortifyPropTypes_idempotent_on_matchFree (s : String)
    (h1 : matchFree stepPropTypesDot (shortifyPropTypes s).data)
    (h2 : matchFree stepDotIsRequired (shortifyPropTypes s).data) :
    shortifyPropTypes (shortifyPropTypes s) = shortifyPropTypes s := by
  conv_lhs => rw [shortifyPropTypes]
  rw [replaceAllEmpty_matchFree _ _ _ h1, replaceAllEmpty_matchFree _ _ _ h2]

/-- C4 witness: a concrete run of the amended theorem on
`"PropTypes.number.isRequired"`, whose stripped form `"number"` is
match-free. -/
theorem shortifyPropTypes_idempotent_on_matchFree_witness :
    matchFree stepPropTypesDot (shortifyPropTypes "PropTypes.number.isRequired").data ∧
    shortifyPropTypes (shortifyPropTypes "PropTypes.number.isRequired") =
      shortifyPropTypes "PropTypes.number.isRequired" :=
  ⟨by decide,
   shortifyPropTypes_idempotent_on_matchFree "PropTypes.number.isRequired"
     (by decide) (by decide)⟩

/-- C7: for every Func descriptor the caption is the literal `"func"`; when
parameter or return documentation tags exist the value is the signature
string: each parameter rendered as `name: typeName` (the `: typeName` part
omitted without a declared type) joined by `", "` in parentheses, `()` when
there are no parameters, with `" => "` and the return type name appended
when a return type is documented; with no documentation tags no separate
value is produced (the value defaults to the caption `"func"`); in
particular parameters `(x: number, y)` with return type `string` give value
`"(x: number, y) => string"`. -/
theorem func_caption_value :
    (∀ ep : ExtractedProp, (generateFunc ep).caption = "func") ∧
    (∀ (dg : DocgenInfo) (ps : List ExtractedJsDocParam) (ret : ExtractedJsDocReturns),
      generateFunc ⟨dg, some ⟨some ps, some ret⟩⟩ =
        { name := PropTypesType.FUNC
          caption := "func"
          value := "(" ++ String.intercalate ", " (ps.map fun x =>
              match x.typeName with
              | some typeName => x.prettyName ++ ": " ++ typeName
              | none => x.prettyName) ++ ")" ++ " => " ++ ret.typeName
          inferedType := none }) ∧
    (∀ (dg : DocgenInfo) (ps : List ExtractedJsDocParam),
      generateFunc ⟨dg, some ⟨some ps, none⟩⟩ =
        { name := PropTypesType.FUNC
          caption := "func"
          value := "(" ++ String.intercalate ", " (ps.map fun x =>
              match x.typeName with
              | some typeName => x.prettyName ++ ": " ++ typeName
              | none => x.prettyName) ++ ")"
          inferedType := none }) ∧
    (∀ (dg : DocgenInfo) (ret : ExtractedJsDocReturns),
      generateFunc ⟨dg, some ⟨none, some ret⟩⟩ =
        { name := PropTypesType.FUNC
          caption := "func"
          value := "() => " ++ ret.typeName
          inferedType := none }) ∧
    (∀ dg : DocgenInfo,
      generateFunc ⟨dg, none⟩ =
        { name := PropTypesType.FUNC, caption := "func", value := "func",
          inferedType := none } ∧
      generateFunc ⟨dg, some ⟨none, none⟩⟩ =
        { name := PropTypesType.FUNC, caption := "func", value := "func",
          inferedType := none }) ∧
    generateFunc ⟨⟨.mk PropTypesType.FUNC none none⟩,
        some ⟨some [⟨"x", some "number"⟩, ⟨"y", none⟩], some ⟨"string"⟩⟩⟩ =
      { name := PropTypesType.FUNC
        caption := "func"
        value := "(x: number, y) => string"
        inferedType := none } := by
  refine ⟨?_, ?_, ?_, ?_, ?_, ?_⟩
  · intro ep
    rcases ep with ⟨dg, tags⟩
    cases tags with
    | none => rfl
    | some t =>
      rcases t with ⟨tp, tr⟩
      cases tp <;> cases tr <;> rfl
  · intro dg ps ret
    show createTypeDef PropTypesType.FUNC "func"
        (some (generateFuncSignature ⟨some ps, some ret⟩ true true)) none = _
    rw [generateFuncSignature_params_returns]
    rfl
  · intro dg ps
    rfl
  · intro dg ret
    show createTypeDef PropTypesType.FUNC "func"
        (some (generateFuncSignature ⟨none, some ret⟩ false true)) none = _
    rw [generateFuncSignature_returns_only]
    rfl
  · intro dg
    exact ⟨rfl, rfl⟩
  · decide

/-- C8: the rendering entry point produces visible output only for the kinds
Custom, Shape, InstanceOf, ObjectOf, Union, Enum, ArrayOf and Func; for the
rendered non-Func kinds the displayed text is the caption and the detail
string is attached exactly when caption and value differ (absent, not merely
empty, when equal); for Func the displayed text is the value itself with no
detail attached. -/
theorem renderType_visibility (inspect : Inspector) (ep : ExtractedProp) :
    (ep.docgenInfo.type.name ∉ captionRenderedKinds →
      ep.docgenInfo.type.name ≠ PropTypesType.FUNC →
      renderType inspect ep = none) ∧
    (ep.docgenInfo.type.name ∈ captionRenderedKinds →
      renderType inspect ep =
        some { text := (generateType inspect ep ep.docgenInfo.type).caption
               title := if (generateType inspect ep ep.docgenInfo.type).caption ≠
                     (generateType inspect ep ep.docgenInfo.type).value
                 then some (generateType inspect ep ep.docgenInfo.type).value
                 else none }) ∧
    (ep.docgenInfo.type.name = PropTypesType.FUNC →
      renderType inspect ep =
        some { text := (generateType inspect ep ep.docgenInfo.type).value
               title := none }) := by
  refine ⟨?_, ?_, ?_⟩
  · intro h1 h2
    simp [renderType, h1, h2]
  · intro h
    simp [renderType, h, createPropText]
  · intro h
    simp [renderType, h, createPropText, captionRenderedKinds, PropTypesType.CUSTOM,
      PropTypesType.SHAPE, PropTypesType.INSTANCEOF, PropTypesType.OBJECTOF,
      PropTypesType.UNION, PropTypesType.ENUM, PropTypesType.ARRAYOF,
      PropTypesType.FUNC]

/-- C8 witness: the theorem applied to a plain `"string"` kind (renders
nothing) and to an InstanceOf descriptor (caption displayed, no detail since
caption equals value). -/
theorem renderType_visibility_witness :
    renderType (fun _ => Except.error ()) ⟨⟨.mk "string" none none⟩, none⟩ = none ∧
    renderType (fun _ => Except.error ())
        ⟨⟨.mk PropTypesType.INSTANCEOF (some (.vstr "Message")) none⟩, none⟩ =
      some { text := "Message", title := none } := by
  constructor
  · exact (renderType_visibility _ _).1 (by decide) (by decide)
  · have h := (renderType_visibility (fun _ => Except.error ())
      ⟨⟨.mk PropTypesType.INSTANCEOF (some (.vstr "Message")) none⟩, none⟩).2.1
      (by decide)
    rw [h]
    decide

/-- C9: for every Union or Enum descriptor whose value is an ordered
sequence, the caption is the members' captions joined by `" | "` and the
value is the members' values joined by `" | "`, both in exactly the input
member order with no re-sorting: the segment lists are order-preserving maps
of the input, so permuting the input permutes the segments identically. -/
theorem union_enum_join_order :
    (∀ (inspect : Inspector) (ep : ExtractedProp) (members : List PropType)
        (raw : Option String),
      generateType inspect ep (.mk PropTypesType.UNION (some (.vseq members)) raw) =
        { name := PropTypesType.UNION
          caption := String.intercalate " | "
            (members.map fun t => (generateType inspect ep t).caption)
          value := String.intercalate " | "
            (members.map fun t => (generateType inspect ep t).value)
          inferedType := none }) ∧
    (∀ (inspect : Inspector) (ep : ExtractedProp) (entries : List EnumValue)
        (raw : Option String) (ds : List TypeDef),
      entries.mapM (generateEnumValue inspect) = .ok ds →
      generateType inspect ep (.mk PropTypesType.ENUM (some (.venum entries)) raw) =
        { name := PropTypesType.ENUM
          caption := String.intercalate " | " (ds.map TypeDef.caption)
          value := String.intercalate " | " (ds.map TypeDef.value)
          inferedType := none }) := by
  constructor
  · intro inspect ep members raw
    rw [generateType_union_eq, unionMembers_eq_map, List.map_map, List.map_map]
    rfl
  · intro inspect ep entries raw ds h
    rw [generateType_enum_eq, generateEnum_ok inspect entries ds h]
    rfl

/-- C9 witness: the Enum half of the theorem at the two-literal enum
`['a', 'b']`, giving caption = value = `"'a' | 'b'"`. -/
theorem union_enum_join_order_witness :
    (([⟨"'a'", false⟩, ⟨"'b'", false⟩] : List EnumValue).mapM
        (generateEnumValue (fun _ => Except.error ())) =
      .ok [{ name := "enumvalue", caption := "'a'", value := "'a'", inferedType := none },
           { name := "enumvalue", caption := "'b'", value := "'b'", inferedType := none }]) ∧
    generateType (fun _ => Except.error ()) ⟨⟨.mk "bool" none none⟩, none⟩
        (.mk PropTypesType.ENUM (some (.venum [⟨"'a'", false⟩, ⟨"'b'", false⟩])) none) =
      { name := PropTypesType.ENUM, caption := "'a' | 'b'", value := "'a' | 'b'",
        inferedType := none } :=
  ⟨rfl,
   union_enum_join_order.2 (fun _ => Except.error ()) ⟨⟨.mk "bool" none none⟩, none⟩
     [⟨"'a'", false⟩, ⟨"'b'", false⟩] none
     [⟨"enumvalue", "'a'", "'a'", none⟩, ⟨"enumvalue", "'b'", "'b'", none⟩] rfl⟩

/-- C10 counterexample: `caption = value` does not hold only in the
value-omitting constructions the claim lists: a Shape descriptor with a short
rendering — a construction that always passes an explicit value — also
returns equal caption and value (and so no detail is attached), refuting the
"exactly those cases" reading. -/
theorem caption_eq_value_not_only_omitted :
    (generateType (fun _ => Except.error ()) ⟨⟨.mk "bool" none none⟩, none⟩
        (.mk PropTypesType.SHAPE
          (some (.vshape [("a", .mk "string" none none)])) none)) =
      { name := PropTypesType.SHAPE
        caption := "\x7b a: string \x7d"
        value := "\x7b a: string \x7d"
        inferedType := none } ∧
    PropTypesType.SHAPE ∉ [PropTypesType.CUSTOM, PropTypesType.FUNC,
      PropTypesType.ARRAYOF, PropTypesType.INSTANCEOF] ∧
    (generateType (fun _ => Except.error ()) ⟨⟨.mk "bool" none none⟩, none⟩
        (.mk PropTypesType.SHAPE
          (some (.vshape [("a", .mk "string" none none)])) none)) ≠
      unknownTypeDef := by
  refine ⟨by decide, by decide, by decide⟩

/-- C10 (amended): every construction that omits an explicit value — Custom
with no raw text, Func without documentation tags, the generic ArrayOf
fallback, InstanceOf, unrecognized kinds, the error fallback — sets the value
equal to the caption (though the two can also coincide elsewhere, e.g. for a
short Shape), and the entry point attaches no detail/title whenever caption
and value are equal. -/
theorem omitted_value_defaults_to_caption :
    (∀ (inspect : Inspector) (ep : ExtractedProp) (v : Option PTValue),
      (generateType inspect ep (.mk PropTypesType.CUSTOM v none)).value =
        (generateType inspect ep (.mk PropTypesType.CUSTOM v none)).caption) ∧
    (∀ (inspect : Inspector) (dg : DocgenInfo) (v : Option PTValue) (raw : Option String),
      (generateType inspect ⟨dg, none⟩ (.mk PropTypesType.FUNC v raw)).value =
        (generateType inspect ⟨dg, none⟩ (.mk PropTypesType.FUNC v raw)).caption) ∧
    (∀ (inspect : Inspector) (ep : ExtractedProp) (t : PropType) (raw : Option String),
      (generateType inspect ep t).name ≠ PropTypesType.SHAPE →
      ¬((generateType inspect ep t).name = PropTypesType.CUSTOM ∧
        (generateType inspect ep t).inferedType = some InspectionType.OBJECT) →
      (generateType inspect ep
          (.mk PropTypesType.ARRAYOF (some (.vnested t)) raw)).value =
        (generateType inspect ep
          (.mk PropTypesType.ARRAYOF (some (.vnested t)) raw)).caption) ∧
    (∀ (inspect : Inspector) (ep : ExtractedProp) (s : String) (raw : Option String),
      (generateType inspect ep (.mk PropTypesType.INSTANCEOF (some (.vstr s)) raw)).value =
        (generateType inspect ep
          (.mk PropTypesType.INSTANCEOF (some (.vstr s)) raw)).caption) ∧
    (∀ (inspect : Inspector) (ep : ExtractedProp) (name : String)
        (v : Option PTValue) (raw : Option String),
      name ∉ handledKinds →
      (generateType inspect ep (.mk name v raw)).value =
        (generateType inspect ep (.mk name v raw)).caption) ∧
    unknownTypeDef.value = unknownTypeDef.caption ∧
    (∀ (inspect : Inspector) (ep : ExtractedProp),
      ep.docgenInfo.type.name ∈ captionRenderedKinds →
      (generateType inspect ep ep.docgenInfo.type).caption =
        (generateType inspect ep ep.docgenInfo.type).value →
      renderType inspect ep =
        some { text := (generateType inspect ep ep.docgenInfo.type).caption
               title := none }) := by
  refine ⟨?_, ?_, ?_, ?_, ?_, rfl, ?_⟩
  · intro inspect ep v
    rfl
  · intro inspect dg v raw
    rfl
  · intro inspect ep t raw h1 h2
    rw [generateType_arrayOf_eq]
    exact generateArrayStep_value_eq_caption (generateType inspect ep t) h1 h2
  · intro inspect ep s raw
    rfl
  · intro inspect ep name v raw h
    rw [generateType_unrecognized inspect ep name v raw h]
  · intro inspect ep hmem hcv
    simp [renderType, hmem, hcv, createPropText]

/-- C10 witness: the amended theorem's ArrayOf-fallback and
unrecognized-kind clauses at concrete inputs. -/
theorem omitted_value_defaults_to_caption_witness :
    ((generateType (fun _ => Except.error ()) ⟨⟨.mk "bool" none none⟩, none⟩
        (.mk PropTypesType.ARRAYOF
          (some (.vnested (.mk "number" none none))) none)).value =
      (generateType (fun _ => Except.error ()) ⟨⟨.mk "bool" none none⟩, none⟩
        (.mk PropTypesType.ARRAYOF
          (some (.vnested (.mk "number" none none))) none)).caption) ∧
    ((generateType (fun _ => Except.error ()) ⟨⟨.mk "bool" none none⟩, none⟩
        (.mk "node" none (some "x"))).value =
      (generateType (fun _ => Except.error ()) ⟨⟨.mk "bool" none none⟩, none⟩
        (.mk "node" none (some "x"))).caption) :=
  ⟨omitted_value_defaults_to_caption.2.2.1 _ _ (.mk "number" none none) none
     (by decide) (by decide),
   omitted_value_defaults_to_caption.2.2.2.2.1 _ _ "node" none (some "x")
     (by decide)⟩
